import Mathlib

/-!
Verification of the meetings dashboard page (`src/pages/MeetingsPage.tsx`).

The page is a single React component.  We shallowly embed the pieces of its
behaviour that the specification talks about:

* the `Meeting` record and the draft form state (`formData`);
* attendee parsing (`split(',')` / `trim` / `filter(Boolean)`);
* the creation handler `handleCreateMeeting` (validation, warning toast,
  dispatch into the mutation);
* the mutation function (payload construction and provider dispatch);
* the success handler (new-meeting construction, link extraction via the
  JavaScript `||` operator, list prepend, dialog close, form reset);
* the error handler (message extraction chain and toasts);
* the `upcomingMeetings` / `pastMeetings` list partitions.

JavaScript timestamps: the component compares `new Date(s)` values.  We keep
the time fields as strings, exactly as the component stores them, and
parameterise the derivations by a function `dateOf : String → Int` standing
for `s ↦ (new Date(s)).getTime()` together with `now : Int` for
`(new Date()).getTime()`.  Likewise `isoOf : String → String` stands for
`s ↦ new Date(s).toISOString()`.

JavaScript truthiness on optional strings: `a || b` yields `b` exactly when
`a` is absent (`undefined`) or the empty string; this is `jsOr` below.
-/

/-- `'scheduled' | 'completed' | 'cancelled'` (the `status` union type). -/
inductive MeetingStatus where
  | scheduled
  | completed
  | cancelled
deriving DecidableEq, Repr

/-- `'google' | 'teams'` (the `platform` union type). -/
inductive Platform where
  | google
  | teams
deriving DecidableEq, Repr

/-- The `Meeting` interface of the page (client-side record). -/
structure Meeting where
  id : String
  title : String
  description : String
  startTime : String
  endTime : String
  attendees : List String
  platform : Platform
  meetingLink : Option String
  joinUrl : Option String
  status : MeetingStatus
deriving DecidableEq, Repr

/-- The draft form state `formData` (all times still raw `datetime-local`
strings, attendees a raw comma-separated string). -/
structure FormData where
  title : String
  description : String
  startTime : String
  endTime : String
  attendees : String
  platform : Platform
deriving DecidableEq, Repr

/-- Initial value of `formData`, also what `resetForm` writes back. -/
def resetFormData : FormData :=
  { title := ""
    description := ""
    startTime := ""
    endTime := ""
    attendees := ""
    platform := Platform.google }

/-- JavaScript `s.split(',')` over the character list: every comma starts a
new piece, so the empty string yields one empty piece, `"a,,b"` yields an
empty middle piece, and a trailing comma yields a trailing empty piece. -/
def splitCommaChars : List Char → List (List Char)
  | [] => [[]]
  | c :: tl =>
    if c = ',' then [] :: splitCommaChars tl
    else
      match splitCommaChars tl with
      | [] => [[c]]
      | h :: t => (c :: h) :: t

/-- JavaScript `s.trim()` over the character list: drop whitespace from both
ends. -/
def trimChars (l : List Char) : List Char :=
  ((l.dropWhile Char.isWhitespace).reverse.dropWhile Char.isWhitespace).reverse

/-- JavaScript `s.split(',')`. -/
def jsSplitComma (s : String) : List String :=
  (splitCommaChars s.data).map (fun cs => String.mk cs)

/-- JavaScript `s.trim()`. -/
def jsTrim (s : String) : String :=
  String.mk (trimChars s.data)

/-- `data.attendees.split(',').map(e => e.trim()).filter(Boolean)` —
the attendee parse; the identical expression occurs twice in the source
(mutation function, line 80, and success handler, line 103), embedded here
once.  `filter(Boolean)` on strings keeps exactly the non-empty ones. -/
def parseAttendees (s : String) : List String :=
  ((jsSplitComma s).map jsTrim).filter (fun t => !t.isEmpty)

/-- The payload handed to the provider creation call. -/
structure Payload where
  title : String
  description : String
  startTime : String
  endTime : String
  attendees : List String
deriving DecidableEq, Repr

/-- Which of the two `IntegrationService` creation calls is issued, with its
payload. -/
inductive ProviderCall where
  | google (p : Payload)
  | teams (p : Payload)
deriving DecidableEq, Repr

/-- The payload carried by a provider call. -/
def ProviderCall.payload : ProviderCall → Payload
  | ProviderCall.google p => p
  | ProviderCall.teams p => p

/-- `mutationFn`: builds the payload from the draft and dispatches on
`data.platform === 'google'`. -/
def mutationFn (isoOf : String → String) (data : FormData) : ProviderCall :=
  let attendeesList := parseAttendees data.attendees
  let payload : Payload :=
    { title := data.title
      description := data.description
      startTime := isoOf data.startTime
      endTime := isoOf data.endTime
      attendees := attendeesList }
  if data.platform = Platform.google then
    ProviderCall.google payload
  else
    ProviderCall.teams payload

/-- Toasts emitted through the notification surface. -/
inductive Toast where
  | success (msg : String)
  | error (msg : String)
  | info (msg : String)
deriving DecidableEq, Repr

/-- `currentUser?.integrations?.microsoft` target: the stored Microsoft
integration record. -/
structure MicrosoftIntegration where
  connected : Bool
deriving DecidableEq, Repr

/-- `currentUser?.integrations` target. -/
structure Integrations where
  microsoft : Option MicrosoftIntegration
deriving DecidableEq, Repr

/-- The part of the `AuthContext` user record the page reads. -/
structure User where
  integrations : Option Integrations
deriving DecidableEq, Repr

/-- `currentUser?.integrations?.microsoft?.connected`, with optional
chaining collapsing any missing link to `false`. -/
def microsoftConnected (currentUser : Option User) : Bool :=
  match currentUser with
  | none => false
  | some u =>
    match u.integrations with
    | none => false
    | some ints =>
      match ints.microsoft with
      | none => false
      | some ms => ms.connected

/-- Result of running `handleCreateMeeting`: the toasts it emitted and the
provider call issued through `createMeetingMutation.mutate` (if any). -/
structure HandleResult where
  toasts : List Toast
  call : Option ProviderCall
deriving DecidableEq, Repr

/-- `handleCreateMeeting`: validates the required fields (JavaScript `!s` on
a string field is `s = ""`), warns when the Teams integration is not
connected but proceeds anyway, and otherwise mutates. -/
def handleCreateMeeting (currentUser : Option User) (isoOf : String → String)
    (formData : FormData) : HandleResult :=
  if formData.title = "" ∨ formData.startTime = "" ∨ formData.endTime = "" then
    { toasts := [Toast.error "Please fill in all required fields"], call := none }
  else if formData.platform = Platform.teams ∧ ¬ microsoftConnected currentUser then
    { toasts := [Toast.error "Microsoft Teams integration NOT connected"]
      call := some (mutationFn isoOf formData) }
  else
    { toasts := [], call := some (mutationFn isoOf formData) }

/-- Nested `data` object of a successful creation response. -/
structure ResponseData where
  meetingLink : Option String
  joinUrl : Option String
deriving DecidableEq, Repr

/-- A successful creation response: links may sit at top level or under
`data`; `none` models an absent (`undefined`) field. -/
structure Response where
  meetingLink : Option String
  joinUrl : Option String
  data : Option ResponseData
deriving DecidableEq, Repr

/-- JavaScript `a || b` on optional strings: `b` exactly when `a` is
`undefined` or the falsy empty string. -/
def jsOr (a b : Option String) : Option String :=
  match a with
  | none => b
  | some s => if s = "" then b else some s

/-- JavaScript `a || d` where `d` is a (truthy) string literal. -/
def jsOrDefault (a : Option String) (d : String) : String :=
  match a with
  | none => d
  | some s => if s = "" then d else s

/-- The `newMeeting` record built in `onSuccess`: spread of the mutation
vars, attendees re-parsed from the raw string, links extracted from
either response shape, status forced to `scheduled`. -/
def mkNewMeeting (response : Response) (vars : FormData)
    (idStr : String) : Meeting :=
  { id := idStr
    title := vars.title
    description := vars.description
    startTime := vars.startTime
    endTime := vars.endTime
    attendees := parseAttendees vars.attendees
    platform := vars.platform
    meetingLink := jsOr response.meetingLink
      ((response.data).bind ResponseData.meetingLink)
    joinUrl := jsOr response.joinUrl ((response.data).bind ResponseData.joinUrl)
    status := MeetingStatus.scheduled }

/-- The local page state touched by the success handler. -/
structure PageState where
  isCreateDialogOpen : Bool
  formData : FormData
  meetings : List Meeting
deriving DecidableEq, Repr

/-- `createMeetingMutation.onSuccess`: prepend the new meeting, close the
dialog, reset the form. -/
def onSuccess (response : Response) (vars : FormData) (idStr : String)
    (s : PageState) : PageState :=
  { isCreateDialogOpen := false
    formData := resetFormData
    meetings := mkNewMeeting response vars idStr :: s.meetings }

/-- `error.response?.data` target in the rejection object. -/
structure ErrorBody where
  error : Option String
deriving DecidableEq, Repr

/-- `error.response` target in the rejection object. -/
structure ErrorResponse where
  data : Option ErrorBody
deriving DecidableEq, Repr

/-- The rejection value seen by `onError` (`error: any`): an optional
axios-style `response` chain and an optional `message`. -/
structure JsError where
  response : Option ErrorResponse
  message : Option String
deriving DecidableEq, Repr

/-- `error.response?.data?.error`: the server-supplied error field, when the
whole optional chain is present. -/
def serverErrorOf (e : JsError) : Option String :=
  ((e.response).bind ErrorResponse.data).bind ErrorBody.error

/-- `error.response?.data?.error || error.message || 'Failed to create meeting'`. -/
def errorMessageOf (e : JsError) : String :=
  jsOrDefault (jsOr (serverErrorOf e) e.message) "Failed to create meeting"

/-- `pat` occurs starting at the head of `l`. -/
def startsWithList : List Char → List Char → Bool
  | _, [] => true
  | [], _ :: _ => false
  | c :: cs, p :: ps => c = p && startsWithList cs ps

/-- `pat` occurs somewhere in `l`. -/
def hasSubList (l pat : List Char) : Bool :=
  match l with
  | [] => pat.isEmpty
  | _ :: tl => startsWithList l pat || hasSubList tl pat

/-- JavaScript `s.includes(pat)`. -/
def strIncludes (s pat : String) : Bool :=
  hasSubList s.data pat.data

/-- `createMeetingMutation.onError`: show the extracted message; if it
mentions `'not connected'`, additionally direct the user to the
Integrations tab. -/
def onError (e : JsError) : List Toast :=
  let errorMessage := errorMessageOf e
  Toast.error errorMessage ::
    (if strIncludes errorMessage "not connected" then
      [Toast.info "Please connect your Microsoft account in the Integrations tab."]
    else [])

/-- `upcomingMeetings`: `status === 'scheduled' && new Date(startTime) > new Date()`. -/
def upcomingMeetings (dateOf : String → Int) (now : Int)
    (meetings : List Meeting) : List Meeting :=
  meetings.filter (fun m =>
    decide (m.status = MeetingStatus.scheduled ∧ now < dateOf m.startTime))

/-- `pastMeetings`: `status === 'completed' || new Date(endTime) < new Date()`. -/
def pastMeetings (dateOf : String → Int) (now : Int)
    (meetings : List Meeting) : List Meeting :=
  meetings.filter (fun m =>
    decide (m.status = MeetingStatus.completed ∨ dateOf m.endTime < now))

/-! ## Claims -/

/-- C1: for every draft in which `title`, `startTime`, or `endTime` is the
empty string, `handleCreateMeeting` emits only the validation-error toast
and issues no provider call. -/
theorem c1_missing_required_fields_block_submission
    (currentUser : Option User) (isoOf : String → String) (fd : FormData)
    (h : fd.title = "" ∨ fd.startTime = "" ∨ fd.endTime = "") :
    (handleCreateMeeting currentUser isoOf fd).call = none ∧
      (handleCreateMeeting currentUser isoOf fd).toasts
        = [Toast.error "Please fill in all required fields"] := by
  unfold handleCreateMeeting
  rw [if_pos h]
  exact ⟨rfl, rfl⟩

/-- C1 witness: the initial (all-empty) draft is blocked. -/
theorem c1_witness :
    (handleCreateMeeting none (fun s => s) resetFormData).call = none ∧
      (handleCreateMeeting none (fun s => s) resetFormData).toasts
        = [Toast.error "Please fill in all required fields"] :=
  c1_missing_required_fields_block_submission none (fun s => s) resetFormData
    (Or.inl rfl)

/-- C2: for every prior meeting list and successful response, `onSuccess`
prepends exactly one new meeting (status `scheduled`) in front of the
unchanged previous list, closes the dialog, and resets every form field to
its default. -/
theorem c2_success_prepends_and_resets (response : Response) (vars : FormData)
    (idStr : String) (s : PageState) :
    (onSuccess response vars idStr s).meetings
        = mkNewMeeting response vars idStr :: s.meetings ∧
      (mkNewMeeting response vars idStr).status = MeetingStatus.scheduled ∧
      (onSuccess response vars idStr s).isCreateDialogOpen = false ∧
      (onSuccess response vars idStr s).formData =
        { title := ""
          description := ""
          startTime := ""
          endTime := ""
          attendees := ""
          platform := Platform.google } :=
  ⟨rfl, rfl, rfl, rfl⟩

/-- C3: for every draft passing validation, the handler issues exactly the
mutation's provider call, and that call is the Google one exactly when the
draft's platform is `google`, the Teams one exactly when it is `teams`. -/
theorem c3_platform_dispatch (currentUser : Option User)
    (isoOf : String → String) (fd : FormData) (h1 : fd.title ≠ "")
    (h2 : fd.startTime ≠ "") (h3 : fd.endTime ≠ "") :
    (handleCreateMeeting currentUser isoOf fd).call = some (mutationFn isoOf fd) ∧
      ((∃ p, mutationFn isoOf fd = ProviderCall.google p) ↔
        fd.platform = Platform.google) ∧
      ((∃ p, mutationFn isoOf fd = ProviderCall.teams p) ↔
        fd.platform = Platform.teams) := by
  refine ⟨?_, ?_, ?_⟩
  · unfold handleCreateMeeting
    rw [if_neg (by simp [h1, h2, h3])]
    split <;> rfl
  · cases hp : fd.platform <;> simp [mutationFn, hp]
  · cases hp : fd.platform <;> simp [mutationFn, hp]

/-- A concrete valid draft targeting Teams. -/
def c3Draft : FormData :=
  { title := "Standup"
    description := "daily sync"
    startTime := "2025-01-01T10:00"
    endTime := "2025-01-01T10:30"
    attendees := "a@x.com"
    platform := Platform.teams }

/-- C3 witness: the concrete valid Teams draft dispatches to Teams. -/
theorem c3_witness :
    (handleCreateMeeting none (fun s => s) c3Draft).call
        = some (mutationFn (fun s => s) c3Draft) ∧
      ((∃ p, mutationFn (fun s => s) c3Draft = ProviderCall.google p) ↔
        c3Draft.platform = Platform.google) ∧
      ((∃ p, mutationFn (fun s => s) c3Draft = ProviderCall.teams p) ↔
        c3Draft.platform = Platform.teams) :=
  c3_platform_dispatch none (fun s => s) c3Draft (by decide) (by decide)
    (by decide)

/-- C4: the attendee parse maps `"a@x.com, , b@y.com ,"` to exactly
`["a@x.com", "b@y.com"]`; in general its output is an order-preserving
sublist of the trimmed comma-pieces, and contains no empty string. -/
theorem c4_attendee_parse :
    parseAttendees "a@x.com, , b@y.com ," = ["a@x.com", "b@y.com"] ∧
      (∀ s, List.Sublist (parseAttendees s) ((jsSplitComma s).map jsTrim)) ∧
      (∀ s, (parseAttendees s).all (fun t => !t.isEmpty) = true) := by
  refine ⟨by decide, fun s => List.filter_sublist _, fun s => ?_⟩
  simp [parseAttendees, List.all_eq_true]

/-- C10: the attendees list in the provider payload and the attendees list
stored on the meeting built by the success handler are both the parse of
the same raw draft string, hence equal. -/
theorem c10_payload_meeting_attendees_agree (isoOf : String → String)
    (fd : FormData) (response : Response) (idStr : String) :
    (mutationFn isoOf fd).payload.attendees
        = (mkNewMeeting response fd idStr).attendees ∧
      (mutationFn isoOf fd).payload.attendees = parseAttendees fd.attendees := by
  cases hp : fd.platform <;>
    simp [mutationFn, mkNewMeeting, hp, ProviderCall.payload]

/-- A clock for the C5 counterexample: the start string parses to one hour
past epoch 0, the end string to a time already past. -/
def c5Date : String → Int := fun s =>
  if s = "start+1h" then 3600000 else -1

/-- A scheduled meeting starting one hour in the future whose end timestamp
is already past (the form never checks that end follows start). -/
def c5Meeting : Meeting :=
  { id := "1"
    title := "m"
    description := ""
    startTime := "start+1h"
    endTime := "end-past"
    attendees := []
    platform := Platform.google
    meetingLink := none
    joinUrl := none
    status := MeetingStatus.scheduled }

/-- C5 counterexample: at now = 0, a `scheduled` meeting with startTime one
hour in the future is in the upcoming partition, yet it is ALSO in the past
partition when its endTime is already past — the claim's "not a member of
the past partition" fails without a condition on endTime. -/
theorem c5_counterexample :
    c5Meeting.status = MeetingStatus.scheduled ∧
      c5Date c5Meeting.startTime = 0 + 3600000 ∧
      c5Meeting ∈ upcomingMeetings c5Date 0 [c5Meeting] ∧
      c5Meeting ∈ pastMeetings c5Date 0 [c5Meeting] := by
  decide

/-- C5 (amended): a meeting in the list with status `scheduled` and
startTime one hour after now, whose endTime is not already before now, is in
the upcoming partition and not in the past partition. -/
theorem c5_scheduled_future_is_upcoming_not_past (dateOf : String → Int)
    (now : Int) (meetings : List Meeting) (m : Meeting) (hm : m ∈ meetings)
    (hs : m.status = MeetingStatus.scheduled)
    (hstart : dateOf m.startTime = now + 3600000)
    (hend : ¬ dateOf m.endTime < now) :
    m ∈ upcomingMeetings dateOf now meetings ∧
      m ∉ pastMeetings dateOf now meetings := by
  constructor
  · refine List.mem_filter.mpr ⟨hm, ?_⟩
    simp only [decide_eq_true_eq]
    exact ⟨hs, by omega⟩
  · intro hcon
    have h2 := (List.mem_filter.mp hcon).2
    simp only [decide_eq_true_eq] at h2
    rcases h2 with h | h
    · rw [hs] at h
      exact MeetingStatus.noConfusion h
    · exact hend h

/-- A clock for the C5 witness. -/
def c5WDate : String → Int := fun s =>
  if s = "s1" then 3600000 else 0

/-- A well-formed scheduled meeting one hour in the future. -/
def c5WMeeting : Meeting :=
  { id := "2"
    title := "w"
    description := ""
    startTime := "s1"
    endTime := "e1"
    attendees := []
    platform := Platform.google
    meetingLink := none
    joinUrl := none
    status := MeetingStatus.scheduled }

/-- C5 witness: the amended statement at a concrete meeting and clock. -/
theorem c5_witness :
    c5WMeeting ∈ upcomingMeetings c5WDate 0 [c5WMeeting] ∧
      c5WMeeting ∉ pastMeetings c5WDate 0 [c5WMeeting] :=
  c5_scheduled_future_is_upcoming_not_past c5WDate 0 [c5WMeeting] c5WMeeting
    (by decide) rfl (by decide) (by decide)

/-- C6: a meeting in the list with status `scheduled` whose start and end
timestamps are both strictly before now is in the past partition (via the
endTime clause), although its status is not `completed`. -/
theorem c6_scheduled_but_ended_is_past (dateOf : String → Int) (now : Int)
    (meetings : List Meeting) (m : Meeting) (hm : m ∈ meetings)
    (hs : m.status = MeetingStatus.scheduled)
    (hstart : dateOf m.startTime < now) (hend : dateOf m.endTime < now) :
    m ∈ pastMeetings dateOf now meetings ∧
      m.status ≠ MeetingStatus.completed := by
  refine ⟨List.mem_filter.mpr ⟨hm, ?_⟩, ?_⟩
  · simp only [decide_eq_true_eq]
    exact Or.inr hend
  · rw [hs]
    exact fun h => MeetingStatus.noConfusion h

/-- A scheduled meeting whose start and end are both already past. -/
def c6Meeting : Meeting :=
  { id := "3"
    title := "old"
    description := ""
    startTime := "s"
    endTime := "e"
    attendees := []
    platform := Platform.teams
    meetingLink := none
    joinUrl := none
    status := MeetingStatus.scheduled }

/-- C6 witness: concrete instance with every timestamp parsing to -1 and
now = 0. -/
theorem c6_witness :
    c6Meeting ∈ pastMeetings (fun _ => -1) 0 [c6Meeting] ∧
      c6Meeting.status ≠ MeetingStatus.completed :=
  c6_scheduled_but_ended_is_past (fun _ => -1) 0 [c6Meeting] c6Meeting
    (by decide) rfl (by decide) (by decide)

/-- C9: a meeting in the list with status `cancelled`, startTime strictly
after now, and endTime not before now belongs to neither partition. -/
theorem c9_cancelled_future_in_neither (dateOf : String → Int) (now : Int)
    (meetings : List Meeting) (m : Meeting) (hm : m ∈ meetings)
    (hs : m.status = MeetingStatus.cancelled)
    (hstart : now < dateOf m.startTime) (hend : ¬ dateOf m.endTime < now) :
    m ∉ upcomingMeetings dateOf now meetings ∧
      m ∉ pastMeetings dateOf now meetings := by
  constructor
  · intro hcon
    have h2 := (List.mem_filter.mp hcon).2
    simp only [decide_eq_true_eq] at h2
    rw [hs] at h2
    exact MeetingStatus.noConfusion h2.1
  · intro hcon
    have h2 := (List.mem_filter.mp hcon).2
    simp only [decide_eq_true_eq] at h2
    rcases h2 with h | h
    · rw [hs] at h
      exact MeetingStatus.noConfusion h
    · exact hend h

/-- A clock for the C9 witness. -/
def c9Date : String → Int := fun s =>
  if s = "cs" then 10 else 5

/-- A cancelled meeting with a future start and a not-yet-past end. -/
def c9Meeting : Meeting :=
  { id := "4"
    title := "cancelled"
    description := ""
    startTime := "cs"
    endTime := "ce"
    attendees := []
    platform := Platform.google
    meetingLink := none
    joinUrl := none
    status := MeetingStatus.cancelled }

/-- C9 witness: the concrete cancelled meeting is dropped from both tabs. -/
theorem c9_witness :
    c9Meeting ∉ upcomingMeetings c9Date 0 [c9Meeting] ∧
      c9Meeting ∉ pastMeetings c9Date 0 [c9Meeting] :=
  c9_cancelled_future_in_neither c9Date 0 [c9Meeting] c9Meeting
    (by decide) rfl (by decide) (by decide)

/-- A rejection with no server-supplied error field but with a JavaScript
error message of its own. -/
def c7Error : JsError :=
  { response := none, message := some "Network Error" }

/-- C7 counterexample: with no server-supplied error field the handler does
NOT fall straight to the generic fallback — it shows `error.message`. -/
theorem c7_counterexample :
    serverErrorOf c7Error = none ∧
      (onError c7Error).head? = some (Toast.error "Network Error") ∧
      errorMessageOf c7Error ≠ "Failed to create meeting" := by
  decide

/-- C7 (amended): the error toast shows exactly the extracted message, which
is the server-supplied error field when present and non-empty; otherwise
`error.message` when present and non-empty; otherwise the generic
`"Failed to create meeting"`. -/
theorem c7_error_message_extraction (e : JsError) :
    (onError e).head? = some (Toast.error (errorMessageOf e)) ∧
      (∀ s, serverErrorOf e = some s → s ≠ "" → errorMessageOf e = s) ∧
      ((serverErrorOf e = none ∨ serverErrorOf e = some "") →
        ∀ s, e.message = some s → s ≠ "" → errorMessageOf e = s) ∧
      ((serverErrorOf e = none ∨ serverErrorOf e = some "") →
        (e.message = none ∨ e.message = some "") →
        errorMessageOf e = "Failed to create meeting") := by
  refine ⟨rfl, ?_, ?_, ?_⟩
  · intro s hs hne
    simp [errorMessageOf, jsOr, jsOrDefault, hs, hne]
  · intro hser s hmsg hne
    rcases hser with h | h <;>
      simp [errorMessageOf, jsOr, jsOrDefault, h, hmsg, hne]
  · intro hser hmsg
    rcases hser with h | h <;> rcases hmsg with h2 | h2 <;>
      simp [errorMessageOf, jsOr, jsOrDefault, h, h2]

/-- A rejection carrying a server-supplied error field. -/
def c7WError : JsError :=
  { response := some { data := some { error := some "Teams not connected" } }
    message := some "Request failed with status code 400" }

/-- C7 witness: the server-supplied message wins over `error.message`. -/
theorem c7_witness : errorMessageOf c7WError = "Teams not connected" :=
  (c7_error_message_extraction c7WError).2.1 "Teams not connected" rfl
    (by decide)

/-- A response whose top-level meetingLink is present but empty, with a
non-empty link nested under `data`. -/
def c8Response : Response :=
  { meetingLink := some ""
    joinUrl := none
    data := some { meetingLink := some "https://meet.example/abc", joinUrl := none } }

/-- C8 counterexample: the top-level meetingLink is present, yet the stored
link is not that field — the JS `||` treats the empty string as falsy and
falls through to the nested `data` field. -/
theorem c8_counterexample :
    (c8Response.meetingLink).isSome = true ∧
      (mkNewMeeting c8Response resetFormData "1").meetingLink
        ≠ c8Response.meetingLink := by
  decide

/-- C8 (amended): the stored meetingLink is the response's top-level field
when present and non-empty, and otherwise the field nested under `data`;
the same rule holds for joinUrl. -/
theorem c8_link_extraction (response : Response) (vars : FormData)
    (idStr : String) :
    (∀ s, response.meetingLink = some s → s ≠ "" →
      (mkNewMeeting response vars idStr).meetingLink = some s) ∧
      ((response.meetingLink = none ∨ response.meetingLink = some "") →
        (mkNewMeeting response vars idStr).meetingLink
          = (response.data).bind ResponseData.meetingLink) ∧
      (∀ s, response.joinUrl = some s → s ≠ "" →
        (mkNewMeeting response vars idStr).joinUrl = some s) ∧
      ((response.joinUrl = none ∨ response.joinUrl = some "") →
        (mkNewMeeting response vars idStr).joinUrl
          = (response.data).bind ResponseData.joinUrl) := by
  refine ⟨?_, ?_, ?_, ?_⟩
  · intro s hs hne
    simp [mkNewMeeting, jsOr, hs, hne]
  · intro h
    rcases h with h | h <;> simp [mkNewMeeting, jsOr, h]
  · intro s hs hne
    simp [mkNewMeeting, jsOr, hs, hne]
  · intro h
    rcases h with h | h <;> simp [mkNewMeeting, jsOr, h]

/-- A response with a non-empty top-level meetingLink and no `data`. -/
def c8WResponse : Response :=
  { meetingLink := some "https://calendar.example/evt"
    joinUrl := none
    data := none }

/-- C8 witness: a non-empty top-level link is stored as-is. -/
theorem c8_witness :
    (mkNewMeeting c8WResponse resetFormData "2").meetingLink
      = some "https://calendar.example/evt" :=
  (c8_link_extraction c8WResponse resetFormData "2").1
    "https://calendar.example/evt" rfl (by decide)
